import Mathlib

/-!
Verification of the voice-pipeline agent (src/agent/agent.py).

The Python source is shallowly embedded below: rooms, participants and track
publications become inductive structures; the room's media behaviour during a
capture (whether subscribing to the stream raises, and which events the stream
then produces) is an explicit environment; Python exceptions become `Except`,
and the `try/except/finally` of `get_latest_image` is translated by running the
try body in the exception monad while tracking the local `video_stream`
variable, then applying the handler and the finaliser to its outcome.
-/

namespace VoiceAgent

/-- Kind of a published track, standing in for the Python `isinstance` check
against `rtc.RemoteVideoTrack`. -/
inductive TrackKind where
  | remoteVideo
  | remoteAudio
  | other
deriving DecidableEq, Repr

/-- A media track published into the room. -/
structure Track where
  sid : String
  kind : TrackKind
deriving DecidableEq, Repr

/-- A track publication; `track` is `none` when the underlying track object is
not (yet) available, mirroring a falsy `track_publication.track`. -/
structure TrackPublication where
  track : Option Track
deriving DecidableEq, Repr

/-- A remote participant with its publications in dict iteration
(insertion) order. -/
structure Participant where
  id : String
  track_publications : List TrackPublication
deriving DecidableEq, Repr

/-- The room state visible to `get_video_track`: the remote participants in
iteration order. -/
structure Room where
  remote_participants : List Participant
deriving DecidableEq, Repr

/-- The check `isinstance(track, rtc.RemoteVideoTrack)`. -/
def is_remote_video_track (t : Track) : Bool :=
  match t.kind with
  | .remoteVideo => true
  | _ => false

/-- Inner loop of `get_video_track`: scan one participant's publications and
return the first present remote video track, if any. -/
def find_video_track_in_pubs : List TrackPublication → Option Track
  | [] => none
  | pub :: rest =>
    match pub.track with
    | some t => if is_remote_video_track t then some t else find_video_track_in_pubs rest
    | none => find_video_track_in_pubs rest

/-- Outer loop of `get_video_track` over the remote participants; raising
`ValueError` is embedded as `Except.error`. -/
def get_video_track_loop : List Participant → Except String Track
  | [] => .error "No remote video track found in the room"
  | p :: ps =>
    match find_video_track_in_pubs p.track_publications with
    | some t => .ok t
    | none => get_video_track_loop ps

/-- Python `get_video_track(room)`: find and return the first available remote video
track in the room, or raise `ValueError`. -/
def get_video_track (room : Room) : Except String Track :=
  get_video_track_loop room.remote_participants

/-- A decoded video frame (opaque pixel data). -/
structure VideoFrame where
  id : Nat
deriving DecidableEq, Repr

/-- One step of iterating the `rtc.VideoStream`: either it yields a decoded
frame event, or iteration raises (a decode error). -/
inductive StreamEvent where
  | frame (f : VideoFrame)
  | raise (e : String)
deriving DecidableEq, Repr

/-- The opened `rtc.VideoStream` handle: the sequence of events iteration
would produce (an empty list means the stream ends without an event). -/
structure StreamHandle where
  events : List StreamEvent
deriving DecidableEq, Repr

/-- The media environment of one `get_latest_image` call: the room, and what
constructing `rtc.VideoStream(track)` does for each track (raise, or yield a
stream handle). -/
structure RoomMedia where
  room : Room
  subscribe : Track → Except String StreamHandle

/-- Outcome of `get_latest_image`, with enough instrumentation to state the
resource-safety claims: the returned value, whether a `rtc.VideoStream` was
opened, whether `aclose` was called on it, and whether an exception
propagated to the caller. -/
structure CaptureResult where
  frame : Option VideoFrame
  stream_opened : Bool
  stream_closed : Bool
  raised : Bool
deriving DecidableEq, Repr

/-- The `try` body of `get_latest_image`: runs in the exception monad and also
reports the value of the local variable `video_stream` at the moment the body
exits (normally or by raising), which is what the `finally` clause inspects. -/
def capture_try_body (env : RoomMedia) :
    Except String (Option VideoFrame) × Option StreamHandle :=
  match get_video_track env.room with
  | .error e => (.error e, none)
  | .ok video_track =>
    match env.subscribe video_track with
    | .error e => (.error e, none)
    | .ok video_stream =>
      match video_stream.events with
      | [] => (.ok none, some video_stream)
      | .frame event :: _ => (.ok (some event), some video_stream)
      | .raise e :: _ => (.error e, some video_stream)

/-- Python `get_latest_image(room)`: capture and return a single frame from the video
track. The `except Exception` clause turns any raised error into a `None`
return; the `finally` clause closes `video_stream` whenever it was assigned. -/
def get_latest_image (env : RoomMedia) : CaptureResult :=
  let body := capture_try_body env
  let video_stream := body.2
  match body.1 with
  | .ok v =>
    { frame := v, stream_opened := video_stream.isSome,
      stream_closed := video_stream.isSome, raised := false }
  | .error _ =>
    { frame := none, stream_opened := video_stream.isSome,
      stream_closed := video_stream.isSome, raised := false }

/-- Side effects performed by the agent code that matter to the claims:
frame-capture calls and log statements. -/
inductive AgentEffect where
  | capture_frame
  | log (msg : String)
deriving DecidableEq, Repr

/-- Role of a chat message. -/
inductive ChatRole where
  | system
  | user
  | assistant
  | tool
deriving DecidableEq, Repr

/-- One content part of a chat message: text or a `ChatImage` wrapping a
decoded frame. -/
inductive ContentPart where
  | text (s : String)
  | image (f : VideoFrame)
deriving DecidableEq, Repr

/-- A `llm.ChatMessage`: a role together with content parts. -/
structure ChatMessage where
  role : ChatRole
  content : List ContentPart
deriving DecidableEq, Repr

/-- A `llm.ChatContext`: the ordered conversation history. -/
structure ChatContext where
  messages : List ChatMessage
deriving DecidableEq, Repr

/-- Python `ChatContext.append(role=..., text=...)`: append a single text message. -/
def ChatContext.append (ctx : ChatContext) (role : ChatRole) (text : String) :
    ChatContext :=
  { messages := ctx.messages ++ [{ role := role, content := [.text text] }] }

/-- The initial context built at the top of `entrypoint`: one system message
(adjacent Python string literals concatenate with no separator). -/
def initial_ctx : ChatContext :=
  (ChatContext.mk []).append .system
    ("You are a voice assistant created by LiveKit that can both see and hear. " ++
     "You should use short and concise responses, avoiding unpronounceable punctuation. " ++
     "Don\x27t make up any information, you can only answer questions about the information you see. " ++
     "If the user is not sharing a screen, you should ask them to do so. " ++
     "### Tools:" ++
     "ALWAYS call the saw_sheet function if you see a Google Sheet you haven\x27t seen before," ++
     "You can get the sheet name and url from the image." ++
     "DON\x27T mention this in your response, just call the tool.")

/-- A call of `get_latest_image`, instrumented with the effect it emits: each
call is exactly one `capture_frame` effect. -/
def call_get_latest_image (env : RoomMedia) : CaptureResult × List AgentEffect :=
  (get_latest_image env, [.capture_frame])

/-- Python `before_llm_cb(assistant, chat_ctx)`: capture the current video frame and,
if one is returned, append it to the conversation context as a user message
holding a single image. Returns the updated context and the effect trace. -/
def before_llm_cb (env : RoomMedia) (chat_ctx : ChatContext) :
    ChatContext × List AgentEffect :=
  let call := call_get_latest_image env
  match call.1.frame with
  | some latest_image =>
    ({ messages := chat_ctx.messages ++
        [{ role := .user, content := [.image latest_image] }] },
     call.2 ++ [.log "Added latest frame to conversation context"])
  | none => (chat_ctx, call.2)

/-- Python `AssistantFnc.saw_sheet(sheet_name, sheet_url)`: logs the sighting and
returns a fixed acknowledgment. The first component is the effect trace. -/
def saw_sheet (sheet_name sheet_url : String) : List AgentEffect × String :=
  ([.log ("################\n\nSaw a sheet " ++ sheet_name ++ " at " ++ sheet_url)],
   "I just saw a Google Sheet")

/-- The endpointing configuration passed to `VoicePipelineAgent`. -/
structure VoicePipelineConfig where
  min_endpointing_delay : ℚ
  max_endpointing_delay : ℚ
deriving DecidableEq, Repr

/-- The configuration used in `entrypoint`: `min_endpointing_delay=0.5`,
`max_endpointing_delay=5.0`. -/
def agent_config : VoicePipelineConfig :=
  { min_endpointing_delay := 1/2, max_endpointing_delay := 5 }

/-- Modelled from the spec: the endpointing state machine of
`VoicePipelineAgent` is library code not present under src/ (src only passes
the two delays). Per the spec, after speech offset the end-of-turn classifier
is consulted; the turn commits no earlier than `min_endpointing_delay`, at the
classifier's first positive report otherwise, and is forced to commit at
`max_endpointing_delay` if the classifier never reports the turn complete.
Classifier outputs are sampled at instants `dt, 2*dt, ...`. -/
def commit_time (cfg : VoicePipelineConfig) (dt : ℚ) (outs : List Bool) : ℚ :=
  match outs.findIdx? (fun b => b) with
  | some i =>
    min (max (((i : ℚ) + 1) * dt) cfg.min_endpointing_delay)
      cfg.max_endpointing_delay
  | none => cfg.max_endpointing_delay

/-- Session-level actions performed by `entrypoint`, in program order. -/
inductive AgentAction where
  | connect_subscribe_all
  | wait_for_participant
  | start_agent
  | say (text : String) (allow_interruptions : Bool)
  | user_turn
deriving DecidableEq, Repr

/-- The ordered actions of `entrypoint` after the initial context is built:
connect with `SUBSCRIBE_ALL`, wait for the first participant, start the agent,
then greet with `allow_interruptions=True`. `entrypoint` itself produces no
user turn. -/
def entrypoint_actions : List AgentAction :=
  [ .connect_subscribe_all,
    .wait_for_participant,
    .start_agent,
    .say "Hey, how can I help you today?" true ]

/-- A `metrics.AgentMetrics` record: one usage event, reduced to its numeric fields. -/
structure AgentMetrics where
  llm_prompt_tokens : Nat
  llm_completion_tokens : Nat
  tts_characters_count : Nat
  stt_audio_duration_ms : Nat
deriving DecidableEq, Repr

/-- Modelled from the spec: `metrics.UsageCollector` is library code not under
src/; per the spec, accumulation is additive and order-independent with no
eviction within a session. -/
structure UsageSummary where
  llm_prompt_tokens : Nat
  llm_completion_tokens : Nat
  tts_characters_count : Nat
  stt_audio_duration_ms : Nat
deriving DecidableEq, Repr

/-- Python `UsageCollector.collect(event)`: add the event's usage to the totals. -/
def UsageSummary.collect (s : UsageSummary) (m : AgentMetrics) : UsageSummary :=
  { llm_prompt_tokens := s.llm_prompt_tokens + m.llm_prompt_tokens,
    llm_completion_tokens := s.llm_completion_tokens + m.llm_completion_tokens,
    tts_characters_count := s.tts_characters_count + m.tts_characters_count,
    stt_audio_duration_ms := s.stt_audio_duration_ms + m.stt_audio_duration_ms }

/-- State of the metrics pipeline: the events logged so far and the
collector's running totals. -/
structure MetricsState where
  logged : List AgentMetrics
  usage : UsageSummary
deriving DecidableEq, Repr

/-- The `metrics_collected` handler registered in `entrypoint`: log the event
with `metrics.log_metrics`, then pass it to `usage_collector.collect`. -/
def on_metrics_collected (st : MetricsState) (agent_metrics : AgentMetrics) :
    MetricsState :=
  { logged := st.logged ++ [agent_metrics],
    usage := st.usage.collect agent_metrics }

/-- Delivery of a stream of metrics events to the handler, in order. -/
def run_metrics_events (st : MetricsState) (events : List AgentMetrics) :
    MetricsState :=
  events.foldl on_metrics_collected st

/-- The remote video track offered by a publication, when its track object is
present and is a remote video track (the selection criterion of
`get_video_track`). -/
def publication_video_track (pub : TrackPublication) : Option Track :=
  match pub.track with
  | some t => if is_remote_video_track t then some t else none
  | none => none

/-- Conversation contexts reachable through the core's own mutations: the
initial context of `entrypoint`, mutated only by the pre-generation hook. -/
inductive ReachableCtx : ChatContext → Prop where
  | init : ReachableCtx initial_ctx
  | hook {c : ChatContext} (env : RoomMedia) :
      ReachableCtx c → ReachableCtx (before_llm_cb env c).1

/-! Concrete sample environments, used to evaluate the definitions at
concrete inputs. -/

/-- A sample decoded frame. -/
def sample_frame : VideoFrame := { id := 0 }

/-- A sample remote video track. -/
def sample_track : Track := { sid := "TR_1", kind := .remoteVideo }

/-- A room whose single remote participant publishes one remote video track. -/
def sample_room : Room :=
  { remote_participants :=
      [{ id := "p1", track_publications := [{ track := some sample_track }] }] }

/-- A media environment with no remote participants: `get_video_track`
raises. -/
def empty_room_env : RoomMedia :=
  { room := { remote_participants := [] },
    subscribe := fun _ => .error "subscribe failed" }

/-- A media environment whose stream yields one frame. -/
def frame_env : RoomMedia :=
  { room := sample_room,
    subscribe := fun _ => .ok { events := [.frame sample_frame] } }

/-- A media environment whose stream ends without yielding any event. -/
def empty_stream_env : RoomMedia :=
  { room := sample_room, subscribe := fun _ => .ok { events := [] } }

/-! ## Claims -/

/-- C1: the pre-generation hook `before_llm_cb` performs exactly one frame
capture per invocation; when a frame is returned it appends exactly one
message with role `user` whose content is the single image wrapping that frame
at the end of the conversation context, and when capture returns `None` the
context is unchanged (the hook is a total function, so nothing is raised). -/
theorem before_llm_cb_single_capture_single_image (env : RoomMedia)
    (chat_ctx : ChatContext) :
    (before_llm_cb env chat_ctx).2.count AgentEffect.capture_frame = 1 ∧
    (∀ f, (get_latest_image env).frame = some f →
      ((before_llm_cb env chat_ctx).1).messages =
        chat_ctx.messages ++ [{ role := .user, content := [.image f] }]) ∧
    ((get_latest_image env).frame = none →
      (before_llm_cb env chat_ctx).1 = chat_ctx) := by
  unfold before_llm_cb call_get_latest_image
  cases h : (get_latest_image env).frame with
  | none => simp [h]
  | some f => simp [h]

/-- Witness for C1 at concrete environments: a yielded frame is appended as a
single user image message, and a failed capture leaves the context as it
was. -/
theorem before_llm_cb_single_capture_single_image_witness :
    (before_llm_cb frame_env initial_ctx).2.count AgentEffect.capture_frame = 1 ∧
    ((before_llm_cb frame_env initial_ctx).1).messages =
      initial_ctx.messages ++ [{ role := .user, content := [.image sample_frame] }] ∧
    (before_llm_cb empty_room_env initial_ctx).1 = initial_ctx :=
  ⟨(before_llm_cb_single_capture_single_image frame_env initial_ctx).1,
   (before_llm_cb_single_capture_single_image frame_env initial_ctx).2.1
     sample_frame rfl,
   (before_llm_cb_single_capture_single_image empty_room_env initial_ctx).2.2 rfl⟩

/-- C2: every error raised in the try body of `get_latest_image` — track
lookup, subscription, or decoding — is caught, the call returns `None`, and no
exception propagates to the caller. -/
theorem get_latest_image_never_raises (env : RoomMedia) :
    (get_latest_image env).raised = false ∧
    (∀ e, (capture_try_body env).1 = Except.error e →
      (get_latest_image env).frame = none) := by
  cases h : capture_try_body env with
  | mk b vs => cases b <;> simp_all [get_latest_image]

/-- Witness for C2: in a room with no participants the lookup error is caught
and `None` is returned. -/
theorem get_latest_image_never_raises_witness :
    (get_latest_image empty_room_env).raised = false ∧
    (get_latest_image empty_room_env).frame = none :=
  ⟨(get_latest_image_never_raises empty_room_env).1,
   (get_latest_image_never_raises empty_room_env).2
     "No remote video track found in the room" rfl⟩

/-- C5: on every exit path of `get_latest_image` on which a video stream was
opened, the stream is closed before the call returns; the subscription is
never retained past the call. -/
theorem get_latest_image_scoped_stream (env : RoomMedia)
    (h : (get_latest_image env).stream_opened = true) :
    (get_latest_image env).stream_closed = true := by
  cases hb : capture_try_body env with
  | mk b vs => cases b <;> simp_all [get_latest_image]

/-- Witness for C5: an environment that opens a stream and yields a frame has
its stream closed on return. -/
theorem get_latest_image_scoped_stream_witness :
    (get_latest_image frame_env).stream_opened = true ∧
    (get_latest_image frame_env).stream_closed = true :=
  ⟨rfl, get_latest_image_scoped_stream frame_env rfl⟩

/-- C10: when a remote video track is found and successfully subscribed but
the frame stream ends without yielding any event, `get_latest_image` returns
`None` with no exception, and the stream is still closed. -/
theorem get_latest_image_empty_stream (env : RoomMedia) (t : Track)
    (h1 : get_video_track env.room = Except.ok t)
    (h2 : env.subscribe t = Except.ok { events := [] }) :
    get_latest_image env =
      { frame := none, stream_opened := true, stream_closed := true,
        raised := false } := by
  simp [get_latest_image, capture_try_body, h1, h2]

/-- Witness for C10 at a concrete environment whose stream produces no
events. -/
theorem get_latest_image_empty_stream_witness :
    get_video_track empty_stream_env.room = Except.ok sample_track ∧
    empty_stream_env.subscribe sample_track = Except.ok { events := [] } ∧
    get_latest_image empty_stream_env =
      { frame := none, stream_opened := true, stream_closed := true,
        raised := false } :=
  ⟨rfl, rfl, get_latest_image_empty_stream empty_stream_env sample_track rfl rfl⟩

/-- The inner scan over one participant's publications returns the first
present remote video track, in publication order. -/
theorem find_video_track_in_pubs_eq (pubs : List TrackPublication) :
    find_video_track_in_pubs pubs =
      (pubs.filterMap publication_video_track).head? := by
  induction pubs with
  | nil => rfl
  | cons pub rest ih =>
    cases h : pub.track with
    | none => simp [find_video_track_in_pubs, publication_video_track, h, ih]
    | some t =>
      by_cases hv : is_remote_video_track t
      · simp [find_video_track_in_pubs, publication_video_track, h, hv]
      · simp [find_video_track_in_pubs, publication_video_track, h, hv, ih]

/-- The outer loop of `get_video_track` returns the first present remote video
track across all participants, in iteration order. -/
theorem get_video_track_loop_eq (ps : List Participant) :
    get_video_track_loop ps =
      match ((ps.flatMap fun p => p.track_publications).filterMap
          publication_video_track).head? with
      | some t => Except.ok t
      | none => Except.error "No remote video track found in the room" := by
  induction ps with
  | nil => rfl
  | cons p ps ih =>
    simp only [get_video_track_loop, List.flatMap_cons, List.filterMap_append]
    rw [find_video_track_in_pubs_eq]
    cases h : p.track_publications.filterMap publication_video_track with
    | nil => simpa using ih
    | cons t rest => simp

/-- C4: `get_video_track` returns the first track — in iteration order over
remote participants and, within each, their publications — that is present and
is a remote video track; when no remote participant publishes such a track it
raises `ValueError` instead of returning one. -/
theorem get_video_track_first_in_order (room : Room) :
    get_video_track room =
      match ((room.remote_participants.flatMap
          fun p => p.track_publications).filterMap
          publication_video_track).head? with
      | some t => Except.ok t
      | none => Except.error "No remote video track found in the room" :=
  get_video_track_loop_eq room.remote_participants

/-- C3: for every sampling interval and every sequence of end-of-turn
classifier outputs, the committed end-of-turn time is at least the configured
minimum endpointing delay (0.5 s) and at most the configured maximum
endpointing delay (5.0 s), also when the classifier never reports the turn
complete. -/
theorem commit_time_bounded (dt : ℚ) (outs : List Bool) :
    agent_config.min_endpointing_delay ≤ commit_time agent_config dt outs ∧
    commit_time agent_config dt outs ≤ agent_config.max_endpointing_delay := by
  cases h : outs.findIdx? (fun b => b) with
  | none =>
    simp only [commit_time, h, agent_config]
    norm_num
  | some i =>
    simp only [commit_time, h, agent_config]
    refine ⟨le_min (le_max_right _ _) (by norm_num), min_le_right _ _⟩

/-- C6: `saw_sheet` returns the same fixed acknowledgment for every pair of
arguments — its return value does not depend on them — and performs no side
effect beyond a single log line. -/
theorem saw_sheet_constant_ack (sheet_name sheet_url : String) :
    (saw_sheet sheet_name sheet_url).2 = "I just saw a Google Sheet" ∧
    (saw_sheet sheet_name sheet_url).1 =
      [.log ("################\n\nSaw a sheet " ++ sheet_name ++ " at " ++
        sheet_url)] :=
  ⟨rfl, rfl⟩

/-- Appending cannot change a nonempty list's head. -/
theorem head?_append_of_some {α : Type} {l e : List α} {x : α}
    (h : l.head? = some x) : (l ++ e).head? = some x := by
  cases l <;> simp_all

/-- C7: in every conversation context reachable through the core's own
mutations the system message is first, and the pre-generation hook only ever
appends at the end — no existing message is removed, replaced or reordered. -/
theorem reachable_ctx_system_first (c : ChatContext) (h : ReachableCtx c) :
    (c.messages.map ChatMessage.role).head? = some ChatRole.system ∧
    (∀ env, ∃ extra,
      ((before_llm_cb env c).1).messages = c.messages ++ extra) := by
  have append_only : ∀ (env : RoomMedia) (d : ChatContext), ∃ extra,
      ((before_llm_cb env d).1).messages = d.messages ++ extra := by
    intro env d
    unfold before_llm_cb call_get_latest_image
    cases hf : (get_latest_image env).frame with
    | none => exact ⟨[], by simp [hf]⟩
    | some f => exact ⟨[{ role := .user, content := [.image f] }], by simp [hf]⟩
  refine ⟨?_, fun env => append_only env c⟩
  induction h with
  | init => rfl
  | hook env hc ih =>
    obtain ⟨extra, hx⟩ := append_only env _
    rw [hx, List.map_append]
    exact head?_append_of_some ih

/-- Witness for C7 at the initial context and a concrete environment. -/
theorem reachable_ctx_system_first_witness :
    (initial_ctx.messages.map ChatMessage.role).head? = some ChatRole.system ∧
    ∃ extra, ((before_llm_cb frame_env initial_ctx).1).messages =
      initial_ctx.messages ++ extra :=
  ⟨(reachable_ctx_system_first initial_ctx ReachableCtx.init).1,
   (reachable_ctx_system_first initial_ctx ReachableCtx.init).2 frame_env⟩

/-- C8: `entrypoint` emits exactly one speech utterance — the greeting
"Hey, how can I help you today?" with `allow_interruptions=True` — after the
agent is started, and `entrypoint` produces no user turn before it. -/
theorem entrypoint_single_interruptible_greeting :
    entrypoint_actions.countP
      (fun a => match a with | AgentAction.say _ _ => true | _ => false) = 1 ∧
    AgentAction.say "Hey, how can I help you today?" true ∈ entrypoint_actions ∧
    List.indexOf AgentAction.start_agent entrypoint_actions <
      List.indexOf (AgentAction.say "Hey, how can I help you today?" true)
        entrypoint_actions ∧
    AgentAction.user_turn ∉ entrypoint_actions := by
  decide

/-- Every delivered metrics event is logged, in order, with none dropped. -/
theorem run_metrics_events_logged (st : MetricsState)
    (events : List AgentMetrics) :
    (run_metrics_events st events).logged = st.logged ++ events := by
  induction events generalizing st with
  | nil => simp [run_metrics_events]
  | cons e es ih =>
    show (run_metrics_events (on_metrics_collected st e) es).logged =
      st.logged ++ (e :: es)
    rw [ih]
    simp [on_metrics_collected]

/-- The collector's totals after delivery are the initial totals plus the
componentwise sums of the delivered events. -/
theorem run_metrics_events_usage (st : MetricsState)
    (events : List AgentMetrics) :
    (run_metrics_events st events).usage =
      { llm_prompt_tokens := st.usage.llm_prompt_tokens +
          (events.map AgentMetrics.llm_prompt_tokens).sum,
        llm_completion_tokens := st.usage.llm_completion_tokens +
          (events.map AgentMetrics.llm_completion_tokens).sum,
        tts_characters_count := st.usage.tts_characters_count +
          (events.map AgentMetrics.tts_characters_count).sum,
        stt_audio_duration_ms := st.usage.stt_audio_duration_ms +
          (events.map AgentMetrics.stt_audio_duration_ms).sum } := by
  induction events generalizing st with
  | nil => simp [run_metrics_events]
  | cons e es ih =>
    show (run_metrics_events (on_metrics_collected st e) es).usage = _
    rw [ih]
    simp [on_metrics_collected, UsageSummary.collect, Nat.add_assoc]

/-- C9: every metrics event received by `on_metrics_collected` is both logged
and passed to the collector, with no event dropped or filtered; accumulation
within a session is additive (the totals are the initial totals plus the
componentwise sums) and order-independent. -/
theorem metrics_events_all_collected (st : MetricsState)
    (events : List AgentMetrics) :
    (run_metrics_events st events).logged = st.logged ++ events ∧
    (run_metrics_events st events).usage =
      { llm_prompt_tokens := st.usage.llm_prompt_tokens +
          (events.map AgentMetrics.llm_prompt_tokens).sum,
        llm_completion_tokens := st.usage.llm_completion_tokens +
          (events.map AgentMetrics.llm_completion_tokens).sum,
        tts_characters_count := st.usage.tts_characters_count +
          (events.map AgentMetrics.tts_characters_count).sum,
        stt_audio_duration_ms := st.usage.stt_audio_duration_ms +
          (events.map AgentMetrics.stt_audio_duration_ms).sum } ∧
    (∀ events', events.Perm events' →
      (run_metrics_events st events).usage =
        (run_metrics_events st events').usage) := by
  refine ⟨run_metrics_events_logged st events,
    run_metrics_events_usage st events, ?_⟩
  intro events' hp
  rw [run_metrics_events_usage, run_metrics_events_usage,
    (hp.map AgentMetrics.llm_prompt_tokens).sum_eq,
    (hp.map AgentMetrics.llm_completion_tokens).sum_eq,
    (hp.map AgentMetrics.tts_characters_count).sum_eq,
    (hp.map AgentMetrics.stt_audio_duration_ms).sum_eq]

/-- A sample metrics event. -/
def ev1 : AgentMetrics :=
  { llm_prompt_tokens := 1, llm_completion_tokens := 2,
    tts_characters_count := 3, stt_audio_duration_ms := 4 }

/-- Another sample metrics event. -/
def ev2 : AgentMetrics :=
  { llm_prompt_tokens := 10, llm_completion_tokens := 20,
    tts_characters_count := 30, stt_audio_duration_ms := 40 }

/-- The empty metrics state at session start. -/
def st0 : MetricsState :=
  { logged := [],
    usage := { llm_prompt_tokens := 0, llm_completion_tokens := 0,
               tts_characters_count := 0, stt_audio_duration_ms := 0 } }

/-- Witness for C9 at two concrete events delivered in both orders. -/
theorem metrics_events_all_collected_witness :
    (run_metrics_events st0 [ev1, ev2]).logged = st0.logged ++ [ev1, ev2] ∧
    (run_metrics_events st0 [ev1, ev2]).usage =
      (run_metrics_events st0 [ev2, ev1]).usage :=
  ⟨(metrics_events_all_collected st0 [ev1, ev2]).1,
   (metrics_events_all_collected st0 [ev1, ev2]).2.2 [ev2, ev1] (by decide)⟩

end VoiceAgent
